import Mathlib

/-!
Verification of the glide-core client dispatch layer
(`glide-core/src/client/mod.rs`).

The Rust code is shallowly embedded: wire values, commands and configuration
become inductive types and structures; asynchronous collaborator calls
(standalone connection, cluster connection, the tokio timeout race) become
explicit function parameters and race-outcome values; fallible code returns
`Except`. Machine integers are `Nat` with explicit `% 2 ^ w` where truncation
matters (the `as u16` port cast).
-/

/-- Per-command response classification (`enum ExpectedReturnType`). -/
inductive ExpectedReturnType where
  | Map
  | Double
  | Boolean
deriving Repr, DecidableEq

/-- Error classes used by this file. `TypeError` is `redis::ErrorKind::TypeError`;
`IoTimedOut` models `redis::ErrorKind::IoError` carrying `io::ErrorKind::TimedOut`,
produced when a deadline fires. -/
inductive ErrorKind where
  | TypeError
  | IoTimedOut
deriving Repr, DecidableEq

/-- Model of `redis::RedisError`, reduced to the observable fields the client code
constructs: an error kind, a description, and an optional detail string. -/
structure RedisError where
  kind : ErrorKind
  desc : String
  detail : Option String
deriving Repr, DecidableEq

/-- The wire-level reply (`redis::Value`, RESP3-capable). The `f64` payload of
`Double` and the numeric payload of `BigNumber` are kept in textual form, since
no verified claim inspects float arithmetic. -/
inductive Value where
  | nil
  | okay
  | int (i : Int)
  | double (d : String)
  | boolean (b : Bool)
  | bulkString (s : String)
  | simpleString (s : String)
  | verbatimString (format : String) (text : String)
  | bigNumber (n : String)
  | array (a : List Value)
  | map (m : List (Value × Value))
  | set (s : List Value)
  | push (kind : String) (data : List Value)
deriving Repr

/-- A command: the ordered argument list of a `redis::Cmd`; element 0 is the
opcode (`cmd.arg_idx(0)`). Byte strings are modelled as `String`. -/
structure Cmd where
  args : List String
deriving Repr

/-- A `redis::Pipeline`: its ordered command list (`pipeline.cmd_iter()`). -/
structure Pipeline where
  cmds : List Cmd

/-- Constructor name of a value, standing in for Rust's `{:?}` Debug rendering
in error details (no claim inspects the detail text). -/
def value_shape : Value → String
  | .nil => "Nil"
  | .okay => "Okay"
  | .int _ => "Int"
  | .double _ => "Double"
  | .boolean _ => "Boolean"
  | .bulkString _ => "BulkString"
  | .simpleString _ => "SimpleString"
  | .verbatimString _ _ => "VerbatimString"
  | .bigNumber _ => "BigNumber"
  | .array _ => "Array"
  | .map _ => "Map"
  | .set _ => "Set"
  | .push _ _ => "Push"

/-- The error built when an array with an odd number of items is coerced to a
map (`convert_to_expected_type`, Array branch). -/
def odd_map_error : RedisError :=
  { kind := .TypeError
    desc := "Response has odd number of items, and cannot be entered into a map"
    detail := none }

/-- The `while let` loop of the Array branch of `convert_to_expected_type`:
consume the list two items at a time, pushing `(key, value)` pairs in order;
a leftover key without a value is the odd-count error. -/
def pair_up : List Value → Except RedisError (List (Value × Value))
  | [] => .ok []
  | [_] => .error odd_map_error
  | k :: v :: rest => (pair_up rest).map (fun l => (k, v) :: l)

/-- Modelled from the spec: `from_redis_value::<f64>` lives in the external
`redis` crate, not in this repository's sources. Per the spec, the Double
coercion parses the raw value (typically a bulk string or integer) as a 64-bit
float, and a parse failure propagates as a type-conversion error. The float is
kept in textual form. -/
def from_redis_value_f64 : Value → Except RedisError String
  | .bulkString s => .ok s
  | .int i => .ok (toString i)
  | .double d => .ok d
  | v => .error { kind := .TypeError
                  desc := "Could not convert from string."
                  detail := some (value_shape v) }

/-- Modelled from the spec: `from_redis_value::<bool>` lives in the external
`redis` crate, not in this repository's sources. Per the spec, the Boolean
coercion parses integer 0/1 or a protocol boolean, and a parse failure
propagates as a type-conversion error. -/
def from_redis_value_bool : Value → Except RedisError Bool
  | .int 0 => .ok false
  | .int 1 => .ok true
  | .boolean b => .ok b
  | v => .error { kind := .TypeError
                  desc := "Response type not boolean compatible."
                  detail := some (value_shape v) }

/-- Embeds `convert_to_expected_type`: coerce a raw value according to the expected
return type; `none` passes the value through unchanged. -/
def convert_to_expected_type (value : Value) (expected : Option ExpectedReturnType) :
    Except RedisError Value :=
  match expected with
  | none => .ok value
  | some e =>
    match e with
    | .Map =>
      match value with
      | .nil => .ok value
      | .map m => .ok (.map m)
      | .array a => (pair_up a).map Value.map
      | v => .error { kind := .TypeError
                      desc := "Response couldn't be converted to map"
                      detail := some ("(response was " ++ value_shape v ++ ")") }
    | .Double => (from_redis_value_f64 value).map Value.double
    | .Boolean => (from_redis_value_bool value).map Value.boolean

/-- Embeds `expected_type_for_cmd`: static classification of a command by its first
argument; the Rust code matches exact byte literals. -/
def expected_type_for_cmd (cmd : Cmd) : Option ExpectedReturnType :=
  match cmd.args[0]? with
  | none => none
  | some command =>
    if command = "HGETALL" ∨ command = "XREAD" then some .Map
    else if command = "INCRBYFLOAT" ∨ command = "HINCRBYFLOAT" then some .Double
    else if command = "HEXISTS" ∨ command = "EXPIRE" ∨ command = "EXPIREAT" ∨
        command = "PEXPIRE" ∨ command = "PEXPIREAT" then some .Boolean
    else none

/-- Model of `redis::cluster_routing::Route` (slot and slot-address), modelled by shape:
only its identity matters to the dispatch layer. -/
structure Route where
  slot : Nat
  replica : Bool
deriving Repr, DecidableEq

/-- Model of `redis::cluster_routing::SingleNodeRoutingInfo`, modelled by shape. -/
inductive SingleNodeRoutingInfo where
  | Random
  | SpecificNode (route : Route)
  | ByAddress (host : String) (port : Nat)
deriving Repr, DecidableEq

/-- Model of `redis::cluster_routing::MultipleNodeRoutingInfo`, modelled by shape. -/
inductive MultipleNodeRoutingInfo where
  | AllNodes
  | AllMasters
  | MultiSlot (slots : List Nat)
deriving Repr, DecidableEq

/-- Model of `redis::cluster_routing::RoutingInfo`: single destination or
multi-destination. -/
inductive RoutingInfo where
  | SingleNode (r : SingleNodeRoutingInfo)
  | MultiNode (r : MultipleNodeRoutingInfo)
deriving Repr, DecidableEq

/-- The route used for a pipeline on the cluster path (`send_pipeline`,
`match routing` expression): a caller-supplied single-node route is used as
given, anything else becomes Random. -/
def pipeline_route (routing : Option RoutingInfo) : SingleNodeRoutingInfo :=
  match routing with
  | some (.SingleNode route) => route
  | _ => .Random

/-- The route used for a single command on the cluster path (`send_command`):
`routing.or_else(|| RoutingInfo::for_routable(cmd)).unwrap_or(Random)`.
`RoutingInfo::for_routable` lives in the external `redis` crate, so the
derivation from the command is a parameter `fr`. -/
def command_routing (fr : Cmd → Option RoutingInfo) (routing : Option RoutingInfo)
    (cmd : Cmd) : RoutingInfo :=
  ((routing.orElse fun _ => fr cmd).getD (.SingleNode .Random))

/-- The distinguished failure returned when a deadline fires:
`io::Error::from(io::ErrorKind::TimedOut).into()`. -/
def timed_out_error : RedisError :=
  { kind := .IoTimedOut, desc := "timed out", detail := none }

/-- Outcome of `tokio::time::timeout` racing an operation against a deadline:
`.error ()` when the deadline fired first (`Elapsed`), `.ok inner` when the
operation completed first with result `inner`. -/
def race_outcome {T : Type} (deadline_fired : Bool) (inner : T) : Except Unit T :=
  if deadline_fired then .error () else .ok inner

/-- Embeds `run_with_timeout`, applied to the race outcome: a fired deadline is mapped
to the timed-out error, a completed operation's own result passes through
(`.map_err(|_| ...TimedOut...).and_then(|res| res)`). -/
def run_with_timeout {T : Type} (raced : Except Unit (Except RedisError T)) :
    Except RedisError T :=
  ((raced.mapError fun _ => timed_out_error).bind id)

/-- The standalone connection collaborator (`StandaloneClient`), modelled by
its two sends as the outcomes they produce. -/
structure StandaloneClient where
  send_command : Cmd → Except RedisError Value
  send_pipeline : Pipeline → Nat → Nat → Except RedisError (List Value)

/-- The cluster connection collaborator
(`redis::cluster_async::ClusterConnection`), modelled by its two routed sends
as the outcomes they produce. -/
structure ClusterConnection where
  route_command : Cmd → RoutingInfo → Except RedisError Value
  route_pipeline : Pipeline → Nat → Nat → SingleNodeRoutingInfo →
    Except RedisError (List Value)

/-- Embeds `enum ClientWrapper`: the two-variant topology. -/
inductive ClientWrapper where
  | Standalone (c : StandaloneClient)
  | Cluster (client : ClusterConnection)

/-- Embeds `struct Client`: a topology wrapper plus the fixed request timeout, in
milliseconds. -/
structure Client where
  internal_client : ClientWrapper
  request_timeout : Nat

/-- Embeds `Client::send_command`. `fr` stands for the external
`RoutingInfo::for_routable`; `deadline_fired` is the timeout race outcome. -/
def Client.send_command (fr : Cmd → Option RoutingInfo) (c : Client) (cmd : Cmd)
    (routing : Option RoutingInfo) (deadline_fired : Bool) :
    Except RedisError Value :=
  let expected_type := expected_type_for_cmd cmd
  run_with_timeout (race_outcome deadline_fired
    ((match c.internal_client with
      | .Standalone client => client.send_command cmd
      | .Cluster client => client.route_command cmd (command_routing fr routing cmd)).bind
      fun value => convert_to_expected_type value expected_type))

/-- Embeds `collect::<Vec<RedisResult<_>>>().into_iter().collect()`: turn the list of
per-element results into one result, failing at the first error. -/
def collect_results : List (Except RedisError Value) → Except RedisError (List Value)
  | [] => .ok []
  | x :: rest =>
    match x with
    | .error e => .error e
    | .ok v => (collect_results rest).map (fun l => v :: l)

/-- The coercion stage of `Client::send_pipeline`: zip the returned values with
the per-command expected types, coerce each, and collect. -/
def send_pipeline_convert (values : List Value) (cmds : List Cmd) :
    Except RedisError (List Value) :=
  collect_results ((values.zip (cmds.map expected_type_for_cmd)).map
    fun p => convert_to_expected_type p.1 p.2)

/-- Embeds `Client::send_pipeline`. `deadline_fired` is the timeout race outcome. -/
def Client.send_pipeline (c : Client) (p : Pipeline) (offset count : Nat)
    (routing : Option RoutingInfo) (deadline_fired : Bool) :
    Except RedisError (List Value) :=
  run_with_timeout (race_outcome deadline_fired
    ((match c.internal_client with
      | .Standalone client => client.send_pipeline p offset count
      | .Cluster client => client.route_pipeline p offset count (pipeline_route routing)).bind
      fun values => send_pipeline_convert values p.cmds))

/-- Model of `connection_request::NodeAddress`: host plus a u32 port field. -/
structure NodeAddress where
  host : String
  port : Nat
deriving Repr, DecidableEq

/-- Model of `connection_request::TlsMode`. -/
inductive TlsMode where
  | NoTls
  | SecureTls
  | InsecureTls
deriving Repr, DecidableEq

/-- Model of `connection_request::ReadFrom` (replica-read preference). -/
inductive ReadFrom where
  | Primary
  | PreferReplica
deriving Repr, DecidableEq

/-- Model of `connection_request::AuthenticationInfo`: protobuf string fields. -/
structure AuthenticationInfo where
  username : String
  password : String
deriving Repr, DecidableEq

/-- Model of `connection_request::ConnectionRetryStrategy` (opaque to this core,
printed in the configuration summary). -/
structure ConnectionRetryStrategy where
  number_of_retries : Nat
  exponent_base : Nat
  factor : Nat
deriving Repr, DecidableEq

/-- Model of `connection_request::ConnectionRequest`, with the fields this module
reads. `request_timeout`, `database_id` and ports are u32 values. -/
structure ConnectionRequest where
  addresses : List NodeAddress
  tls_mode : TlsMode
  cluster_mode_enabled : Bool
  request_timeout : Nat
  database_id : Nat
  read_from : ReadFrom
  connection_retry_strategy : Option ConnectionRetryStrategy
  authentication_info : Option AuthenticationInfo
  use_resp3 : Bool
deriving Repr, DecidableEq

/-- Embeds `get_port`: port 0 selects the default 6379; any other u32 value is cast
`as u16`, i.e. truncated modulo 2^16. -/
def get_port (address : NodeAddress) : Nat :=
  if address.port = 0 then 6379 else address.port % 65536

/-- Embeds `chars_to_string_option`: an empty protobuf string means "not provided". -/
def chars_to_string_option (chars : String) : Option String :=
  if chars.isEmpty then none else some chars

/-- Model of `redis::RedisConnectionInfo`, with the fields this module sets; `db` is an
i64 (`database_id as i64`). -/
structure RedisConnectionInfo where
  db : Int
  username : Option String
  password : Option String
  use_resp3 : Bool
  client_name : Option String
deriving Repr, DecidableEq

/-- Embeds `get_redis_connection_info`. -/
def get_redis_connection_info (authentication_info : Option AuthenticationInfo)
    (database_id : Nat) (use_resp3 : Bool) : RedisConnectionInfo :=
  match authentication_info with
  | some info =>
    { db := database_id
      username := chars_to_string_option info.username
      password := chars_to_string_option info.password
      use_resp3 := use_resp3
      client_name := none }
  | none =>
    { db := database_id
      username := none
      password := none
      use_resp3 := use_resp3
      client_name := none }

/-- Model of `redis::ConnectionAddr`, with the fields this module sets (TLS parameters
omitted: always None here). -/
inductive ConnectionAddr where
  | Tcp (host : String) (port : Nat)
  | TcpTls (host : String) (port : Nat) (insecure : Bool)
deriving Repr, DecidableEq

/-- Model of `redis::ConnectionInfo`. -/
structure ConnectionInfo where
  addr : ConnectionAddr
  redis : RedisConnectionInfo
deriving Repr, DecidableEq

/-- Embeds `get_connection_info`. -/
def get_connection_info (address : NodeAddress) (tls_mode : TlsMode)
    (redis_connection_info : RedisConnectionInfo) : ConnectionInfo :=
  let addr := if tls_mode ≠ TlsMode.NoTls then
      ConnectionAddr.TcpTls address.host (get_port address)
        (tls_mode = TlsMode.InsecureTls)
    else
      ConnectionAddr.Tcp address.host (get_port address)
  { addr := addr, redis := redis_connection_info }

/-- Embeds `to_duration`: a positive millisecond count, else the default. -/
def to_duration (time_in_millis : Nat) (default : Nat) : Nat :=
  if time_in_millis > 0 then time_in_millis else default

/-- Embeds `DEFAULT_RESPONSE_TIMEOUT` in milliseconds. -/
def DEFAULT_RESPONSE_TIMEOUT : Nat := 250

/-- The connection-info list built by `create_cluster_client` for the initial
nodes: the database index passed to `get_redis_connection_info` is the literal
0, not `request.database_id`. Builder configuration and the live connection
attempt are collaborator bootstrapping outside this model. -/
def create_cluster_client_infos (request : ConnectionRequest) : List ConnectionInfo :=
  let tls_mode := request.tls_mode
  let redis_connection_info :=
    get_redis_connection_info request.authentication_info 0 request.use_resp3
  request.addresses.map fun address =>
    get_connection_info address tls_mode redis_connection_info

/-- Model of `StandaloneClientConnectionError` (defined in the standalone-client module,
outside this file's scope); only its identity matters here. -/
structure StandaloneClientConnectionError where
  msg : String

/-- Embeds `enum ConnectionError`: the unified construction-error taxonomy. -/
inductive ConnectionError where
  | Standalone (e : StandaloneClientConnectionError)
  | Cluster (e : RedisError)
  | Timeout

/-- Embeds `format_non_zero_value`: a summary line only for a positive value. -/
def format_non_zero_value (name : String) (value : Nat) : String :=
  if value > 0 then "\n" ++ name ++ ": " ++ toString value else ""

/-- Debug rendering of a TlsMode, as Rust derives it. -/
def tls_mode_debug : TlsMode → String
  | .NoTls => "NoTls"
  | .SecureTls => "SecureTls"
  | .InsecureTls => "InsecureTls"

/-- Debug rendering of a ReadFrom, as Rust derives it. -/
def read_from_debug : ReadFrom → String
  | .Primary => "Primary"
  | .PreferReplica => "PreferReplica"

/-- Embeds `sanitized_request_string`: the configuration summary logged at
construction. It reads every field of the request except
`authentication_info`. -/
def sanitized_request_string (request : ConnectionRequest) : String :=
  let addresses := String.intercalate ", "
    (request.addresses.map fun address => address.host ++ ":" ++ toString address.port)
  let tls_mode := request.tls_mode
  let cluster_mode := request.cluster_mode_enabled
  let request_timeout := format_non_zero_value "response timeout" request.request_timeout
  let database_id := format_non_zero_value "database ID" request.database_id
  let rfr_strategy := request.read_from
  let connection_retry_strategy :=
    match request.connection_retry_strategy with
    | some strategy =>
      "\nreconnect backoff strategy: number of increasing duration retries: " ++
        toString strategy.number_of_retries ++ ", base: " ++
        toString strategy.exponent_base ++ ", factor: " ++ toString strategy.factor
    | none => ""
  "\naddresses: " ++ addresses ++ "\nTLS mode: " ++ tls_mode_debug tls_mode ++
    "\ncluster mode: " ++ toString cluster_mode ++ request_timeout ++
    "\nRead from replica strategy: " ++ read_from_debug rfr_strategy ++
    database_id ++ connection_retry_strategy

/-- Embeds `Client::new`. The two collaborator constructors (`create_cluster_client`'s
live-connection step and `StandaloneClient::create_client`) are parameters
returning the outcomes they produce; `creation_deadline_fired` is the outcome
of the 10 s construction race. -/
def client_new
    (create_cluster : ConnectionRequest → Except RedisError ClusterConnection)
    (create_standalone :
      ConnectionRequest → Except StandaloneClientConnectionError StandaloneClient)
    (creation_deadline_fired : Bool)
    (request : ConnectionRequest) : Except ConnectionError Client :=
  let request_timeout := to_duration request.request_timeout DEFAULT_RESPONSE_TIMEOUT
  let inner : Except ConnectionError Client :=
    (if request.cluster_mode_enabled then
      ((create_cluster request).mapError ConnectionError.Cluster).map
        fun client => ClientWrapper.Cluster client
    else
      ((create_standalone request).mapError ConnectionError.Standalone).map
        fun c => ClientWrapper.Standalone c).map
      fun internal_client =>
        { internal_client := internal_client, request_timeout := request_timeout }
  ((race_outcome creation_deadline_fired inner).mapError
    fun _ => ConnectionError.Timeout).bind id

/-- A sample cluster connection used to instantiate theorems at concrete
inputs. -/
def trivial_cluster : ClusterConnection :=
  ⟨fun _ _ => .ok .nil, fun _ _ _ _ => .ok []⟩

/-- A sample standalone client used to instantiate theorems at concrete
inputs. -/
def trivial_standalone : StandaloneClient :=
  ⟨fun _ => .ok .nil, fun _ _ _ => .ok []⟩

/-- A sample connection request used to instantiate theorems at concrete
inputs. -/
def sample_request : ConnectionRequest :=
  { addresses := [{ host := "localhost", port := 6379 }]
    tls_mode := .NoTls
    cluster_mode_enabled := true
    request_timeout := 0
    database_id := 5
    read_from := .Primary
    connection_retry_strategy := none
    authentication_info := none
    use_resp3 := false }

/-- The pair a regrouped map must hold at index i: source elements 2i and
2i+1. -/
def pair_at (a : List Value) (i : Nat) : Option (Value × Value) :=
  match a[2 * i]?, a[2 * i + 1]? with
  | some k, some v => some (k, v)
  | _, _ => none

lemma pair_at_cons_cons (k v : Value) (rest : List Value) (i : Nat) :
    pair_at (k :: v :: rest) (i + 1) = pair_at rest i := by
  have h1 : 2 * (i + 1) = 2 * i + 1 + 1 := by omega
  have h2 : 2 * (i + 1) + 1 = 2 * i + 1 + 1 + 1 := by omega
  simp [pair_at, h1, h2]

lemma pair_up_even (a : List Value) (h : a.length % 2 = 0) :
    ∃ l, pair_up a = .ok l ∧ l.length = a.length / 2 ∧ ∀ i, l[i]? = pair_at a i := by
  induction a using pair_up.induct with
  | case1 => exact ⟨[], rfl, rfl, fun i => by simp [pair_at]⟩
  | case2 x => simp at h
  | case3 k v rest ih =>
    have hr : rest.length % 2 = 0 := by simp at h; omega
    obtain ⟨l, hl, hlen, hidx⟩ := ih hr
    refine ⟨(k, v) :: l, ?_, ?_, ?_⟩
    · simp [pair_up, hl, Except.map]
    · simp only [List.length_cons, hlen]; omega
    · intro i
      cases i with
      | zero => simp [pair_at]
      | succ n => simp [pair_at_cons_cons, hidx n]

lemma pair_up_odd (a : List Value) (h : a.length % 2 = 1) :
    pair_up a = .error odd_map_error := by
  induction a using pair_up.induct with
  | case1 => simp at h
  | case2 x => rfl
  | case3 k v rest ih =>
    have hr : rest.length % 2 = 1 := by simp at h; omega
    simp [pair_up, ih hr, Except.map]

/-- C1: coercion with expected type Map returns Nil unchanged and an existing
Map unchanged; a flat Array of even length is regrouped into a Map whose pair
at index i is (element 2i, element 2i+1), preserving original order; an Array
of odd length yields a TypeError naming the odd-count condition; any other
shape yields a TypeError naming the unexpected shape. -/
theorem C1_map_coercion (m : List (Value × Value)) (a : List Value) (v : Value) :
    (convert_to_expected_type Value.nil (some .Map) = .ok Value.nil) ∧
    (convert_to_expected_type (Value.map m) (some .Map) = .ok (Value.map m)) ∧
    (a.length % 2 = 0 →
      ∃ l, convert_to_expected_type (Value.array a) (some .Map) = .ok (Value.map l) ∧
        l.length = a.length / 2 ∧ ∀ i, l[i]? = pair_at a i) ∧
    (a.length % 2 = 1 →
      convert_to_expected_type (Value.array a) (some .Map) =
        .error { kind := .TypeError
                 desc := "Response has odd number of items, and cannot be entered into a map"
                 detail := none }) ∧
    ((v ≠ .nil ∧ (∀ m2, v ≠ .map m2) ∧ (∀ a2, v ≠ .array a2)) →
      ∃ d, convert_to_expected_type v (some .Map) =
        .error { kind := .TypeError
                 desc := "Response couldn't be converted to map"
                 detail := d }) := by
  refine ⟨rfl, rfl, ?_, ?_, ?_⟩
  · intro h
    obtain ⟨l, hl, hlen, hidx⟩ := pair_up_even a h
    exact ⟨l, by simp [convert_to_expected_type, hl, Except.map], hlen, hidx⟩
  · intro h
    simp [convert_to_expected_type, pair_up_odd a h, Except.map, odd_map_error]
  · rintro ⟨h1, h2, h3⟩
    cases v
    case nil => exact absurd rfl h1
    case map m2 => exact absurd rfl (h2 m2)
    case array a2 => exact absurd rfl (h3 a2)
    all_goals exact ⟨_, rfl⟩

/-- C1 witness: the theorem applied at an even array, an odd array, and an
integer. -/
theorem C1_map_coercion_witness :
    (∃ l, convert_to_expected_type (Value.array [Value.int 1, Value.int 2]) (some .Map) =
      .ok (Value.map l) ∧ l.length = 1 ∧
      ∀ i, l[i]? = pair_at [Value.int 1, Value.int 2] i) ∧
    (convert_to_expected_type (Value.array [Value.int 1]) (some .Map) =
      .error { kind := .TypeError
               desc := "Response has odd number of items, and cannot be entered into a map"
               detail := none }) ∧
    (∃ d, convert_to_expected_type (Value.int 7) (some .Map) =
      .error { kind := .TypeError
               desc := "Response couldn't be converted to map"
               detail := d }) :=
  ⟨(C1_map_coercion [] [Value.int 1, Value.int 2] Value.nil).2.2.1 rfl,
   (C1_map_coercion [] [Value.int 1] Value.nil).2.2.2.1 rfl,
   (C1_map_coercion [] [] (Value.int 7)).2.2.2.2
     ⟨fun h => Value.noConfusion h, fun _ h => Value.noConfusion h,
      fun _ h => Value.noConfusion h⟩⟩

/-- C2 counterexample: classification of the primary token is not
case-insensitive — the lowercase spelling of HGETALL is classified as
pass-through (none), while the uppercase opcode is classified as Map. -/
theorem C2_case_insensitive_counterexample :
    expected_type_for_cmd { args := ["hgetall"] } = none ∧
    expected_type_for_cmd { args := ["HGETALL"] } = some ExpectedReturnType.Map := by
  exact ⟨by decide, by decide⟩

/-- C2 (amended): the expected-return-type classification of a command's first
argument is by exact, case-sensitive byte equality: the uppercase opcodes
HGETALL and XREAD classify as Map, INCRBYFLOAT and HINCRBYFLOAT as Double,
HEXISTS, EXPIRE, EXPIREAT, PEXPIRE and PEXPIREAT as Boolean, and any other
first argument — including any other letter casing of those opcodes — or a
missing first argument classifies as none (pass-through). -/
theorem C2_classification_case_sensitive (rest : List String) (s : String) :
    (expected_type_for_cmd { args := [] } = none) ∧
    (expected_type_for_cmd { args := "HGETALL" :: rest } = some .Map) ∧
    (expected_type_for_cmd { args := "XREAD" :: rest } = some .Map) ∧
    (expected_type_for_cmd { args := "INCRBYFLOAT" :: rest } = some .Double) ∧
    (expected_type_for_cmd { args := "HINCRBYFLOAT" :: rest } = some .Double) ∧
    (expected_type_for_cmd { args := "HEXISTS" :: rest } = some .Boolean) ∧
    (expected_type_for_cmd { args := "EXPIRE" :: rest } = some .Boolean) ∧
    (expected_type_for_cmd { args := "EXPIREAT" :: rest } = some .Boolean) ∧
    (expected_type_for_cmd { args := "PEXPIRE" :: rest } = some .Boolean) ∧
    (expected_type_for_cmd { args := "PEXPIREAT" :: rest } = some .Boolean) ∧
    (s ∉ ["HGETALL", "XREAD", "INCRBYFLOAT", "HINCRBYFLOAT", "HEXISTS", "EXPIRE",
        "EXPIREAT", "PEXPIRE", "PEXPIREAT"] →
      expected_type_for_cmd { args := s :: rest } = none) := by
  refine ⟨by decide, ?_, ?_, ?_, ?_, ?_, ?_, ?_, ?_, ?_, ?_⟩
  all_goals first
  | (intro hs
     simp only [List.mem_cons, List.mem_singleton, not_or] at hs
     obtain ⟨n1, n2, n3, n4, n5, n6, n7, n8, n9⟩ := hs
     simp [expected_type_for_cmd, n1, n2, n3, n4, n5, n6, n7, n8, n9])
  | simp [expected_type_for_cmd]

/-- C2 witness: the amended classification applied to the lowercase spelling. -/
theorem C2_classification_case_sensitive_witness :
    expected_type_for_cmd { args := ["hgetall"] } = none := by
  have h := C2_classification_case_sensitive [] "hgetall"
  exact h.2.2.2.2.2.2.2.2.2.2 (by decide)

lemma send_pipeline_convert_nil (cmds : List Cmd) :
    send_pipeline_convert [] cmds = .ok [] := by
  simp [send_pipeline_convert, collect_results]

lemma send_pipeline_convert_cons (v : Value) (vs : List Value) (c : Cmd)
    (cs : List Cmd) :
    send_pipeline_convert (v :: vs) (c :: cs) =
      match convert_to_expected_type v (expected_type_for_cmd c) with
      | .error e => .error e
      | .ok w => (send_pipeline_convert vs cs).map (fun l => w :: l) := by
  cases hc : convert_to_expected_type v (expected_type_for_cmd c) <;>
    simp [send_pipeline_convert, collect_results, hc, List.zip]

lemma send_pipeline_convert_ok (values : List Value) (cmds : List Cmd)
    (hlen : values.length ≤ cmds.length)
    (h : ∀ (i : Nat) (v : Value) (c : Cmd), values[i]? = some v → cmds[i]? = some c →
      ∃ w, convert_to_expected_type v (expected_type_for_cmd c) = .ok w) :
    ∃ out, send_pipeline_convert values cmds = .ok out ∧
      out.length = values.length ∧
      ∀ (i : Nat) (v : Value) (c : Cmd), values[i]? = some v → cmds[i]? = some c →
        out[i]? = (convert_to_expected_type v (expected_type_for_cmd c)).toOption := by
  induction values generalizing cmds with
  | nil =>
    refine ⟨[], send_pipeline_convert_nil cmds, rfl, ?_⟩
    intro i v c hv
    simp at hv
  | cons v vs ih =>
    cases cmds with
    | nil => simp at hlen
    | cons c cs =>
      obtain ⟨w, hw⟩ := h 0 v c (by simp) (by simp)
      have hlen2 : vs.length ≤ cs.length := by simp at hlen; omega
      have h2 : ∀ (i : Nat) (v2 : Value) (c2 : Cmd), vs[i]? = some v2 → cs[i]? = some c2 →
          ∃ w2, convert_to_expected_type v2 (expected_type_for_cmd c2) = .ok w2 :=
        fun i v2 c2 hv hc => h (i + 1) v2 c2 (by simpa) (by simpa)
      obtain ⟨out, hout, holen, hoidx⟩ := ih cs hlen2 h2
      refine ⟨w :: out, ?_, by simp [holen], ?_⟩
      · rw [send_pipeline_convert_cons, hw]
        simp [hout, Except.map]
      · intro i v2 c2 hv hc
        cases i with
        | zero =>
          simp only [List.getElem?_cons_zero, Option.some.injEq] at hv hc
          subst hv; subst hc
          simp [hw, Except.toOption]
        | succ n =>
          simp only [List.getElem?_cons_succ] at hv hc
          simpa using hoidx n v2 c2 hv hc

lemma send_pipeline_convert_error (values : List Value) (cmds : List Cmd)
    (i : Nat) (v : Value) (c : Cmd) (e : RedisError)
    (hv : values[i]? = some v) (hc : cmds[i]? = some c)
    (he : convert_to_expected_type v (expected_type_for_cmd c) = .error e)
    (hprev : ∀ j, j < i → ∀ (vj : Value) (cj : Cmd), values[j]? = some vj → cmds[j]? = some cj →
      ∃ wj, convert_to_expected_type vj (expected_type_for_cmd cj) = .ok wj) :
    send_pipeline_convert values cmds = .error e := by
  induction values generalizing cmds i with
  | nil => simp at hv
  | cons v0 vs ih =>
    cases cmds with
    | nil => simp at hc
    | cons c0 cs =>
      cases i with
      | zero =>
        simp only [List.getElem?_cons_zero, Option.some.injEq] at hv hc
        subst hv; subst hc
        rw [send_pipeline_convert_cons, he]
      | succ n =>
        obtain ⟨w0, hw0⟩ := hprev 0 (Nat.succ_pos n) v0 c0 (by simp) (by simp)
        simp only [List.getElem?_cons_succ] at hv hc
        have htail := ih cs n hv hc (fun j hj vj cj hvj hcj =>
          hprev (j + 1) (by omega) vj cj (by simpa) (by simpa))
        rw [send_pipeline_convert_cons, hw0]
        simp [htail, Except.map]

lemma run_with_timeout_completed {T : Type} (inner : Except RedisError T) :
    run_with_timeout (race_outcome false inner) = inner := rfl

/-- C3: for a pipeline send whose collaborator call returns N raw values, each
value at position i is coerced with the expected type of the command at the
same position i, counted from the start of the command list and independent of
the offset/count arguments; order is preserved; and a single failing coercion
fails the whole pipeline with that error instead of partial data. -/
theorem C3_pipeline_position_wise (values : List Value) (cmds : List Cmd)
    (hlen : values.length ≤ cmds.length) :
    ((∀ (i : Nat) (v : Value) (c : Cmd), values[i]? = some v → cmds[i]? = some c →
        ∃ w, convert_to_expected_type v (expected_type_for_cmd c) = .ok w) →
      ∃ out, send_pipeline_convert values cmds = .ok out ∧
        out.length = values.length ∧
        ∀ (i : Nat) (v : Value) (c : Cmd), values[i]? = some v → cmds[i]? = some c →
          out[i]? = (convert_to_expected_type v (expected_type_for_cmd c)).toOption) ∧
    (∀ (i : Nat) (v : Value) (c : Cmd) (e : RedisError),
      values[i]? = some v → cmds[i]? = some c →
      convert_to_expected_type v (expected_type_for_cmd c) = .error e →
      (∀ j, j < i → ∀ (vj : Value) (cj : Cmd), values[j]? = some vj →
        cmds[j]? = some cj →
        ∃ wj, convert_to_expected_type vj (expected_type_for_cmd cj) = .ok wj) →
      send_pipeline_convert values cmds = .error e) ∧
    (∀ (sc : StandaloneClient) (t offset count : Nat) (routing : Option RoutingInfo)
        (p : Pipeline), p.cmds = cmds → sc.send_pipeline p offset count = .ok values →
      Client.send_pipeline ⟨.Standalone sc, t⟩ p offset count routing false =
        send_pipeline_convert values cmds) ∧
    (∀ (cc : ClusterConnection) (t offset count : Nat) (routing : Option RoutingInfo)
        (p : Pipeline), p.cmds = cmds →
        cc.route_pipeline p offset count (pipeline_route routing) = .ok values →
      Client.send_pipeline ⟨.Cluster cc, t⟩ p offset count routing false =
        send_pipeline_convert values cmds) := by
  refine ⟨send_pipeline_convert_ok values cmds hlen,
    fun i v c e hv hc he hprev =>
      send_pipeline_convert_error values cmds i v c e hv hc he hprev, ?_, ?_⟩
  · intro sc t offset count routing p hp hsend
    subst hp
    simp [Client.send_pipeline, run_with_timeout_completed, hsend, Except.bind]
  · intro cc t offset count routing p hp hsend
    subst hp
    simp [Client.send_pipeline, run_with_timeout_completed, hsend, Except.bind]

/-- C3 witness: the theorem applied to a two-command pipeline whose raw values
both coerce successfully. -/
theorem C3_pipeline_position_wise_witness :
    ∃ out, send_pipeline_convert [Value.int 5, Value.array []]
        [{ args := ["GET", "k"] }, { args := ["HGETALL", "h"] }] = .ok out ∧
      out.length = 2 ∧
      ∀ (i : Nat) (v : Value) (c : Cmd),
        ([Value.int 5, Value.array []])[i]? = some v →
        ([{ args := ["GET", "k"] }, { args := ["HGETALL", "h"] }] : List Cmd)[i]? = some c →
        out[i]? = (convert_to_expected_type v (expected_type_for_cmd c)).toOption := by
  have h := (C3_pipeline_position_wise [Value.int 5, Value.array []]
    [{ args := ["GET", "k"] }, { args := ["HGETALL", "h"] }] (by decide)).1
  refine h ?_
  intro i v c hv hc
  match i with
  | 0 =>
    simp only [List.getElem?_cons_zero, Option.some.injEq] at hv hc
    subst hv; subst hc
    exact ⟨Value.int 5, rfl⟩
  | 1 =>
    simp only [List.getElem?_cons_succ, List.getElem?_cons_zero, Option.some.injEq] at hv hc
    subst hv; subst hc
    exact ⟨Value.map [], rfl⟩
  | n + 2 => simp at hv

/-- C4: run_with_timeout returns the distinguished timed-out failure when the
deadline fires before the operation completes, and the operation's own result
unmodified (success or its own error) when the operation completes first. -/
theorem C4_run_with_timeout {T : Type} (raced : Except Unit (Except RedisError T)) :
    (raced = .error () →
      run_with_timeout raced = .error timed_out_error ∧
      timed_out_error.kind = .IoTimedOut) ∧
    (∀ res, raced = .ok res → run_with_timeout raced = res) := by
  constructor
  · rintro rfl
    exact ⟨rfl, rfl⟩
  · rintro res rfl
    rfl

/-- C4 witness: the theorem applied to a fired deadline, a completed success
and a completed protocol error. -/
theorem C4_run_with_timeout_witness :
    (run_with_timeout (Except.error () : Except Unit (Except RedisError Value)) =
      .error timed_out_error) ∧
    (run_with_timeout (Except.ok (Except.ok Value.okay) :
        Except Unit (Except RedisError Value)) = .ok Value.okay) ∧
    (run_with_timeout (Except.ok (Except.error odd_map_error) :
        Except Unit (Except RedisError Value)) = .error odd_map_error) :=
  ⟨((C4_run_with_timeout (Except.error ())).1 rfl).1,
   (C4_run_with_timeout _).2 (Except.ok Value.okay) rfl,
   (C4_run_with_timeout _).2 (Except.error odd_map_error) rfl⟩

/-- C5: a pipeline send on a cluster-topology client always uses a
single-destination route: a caller-supplied single-node routing is used as
given, and any other case (none, or multi-destination) downgrades without
error to a random single node; the resolved route is what is handed to the
cluster collaborator. -/
theorem C5_pipeline_single_destination (routing : Option RoutingInfo)
    (cc : ClusterConnection) (t : Nat) (p : Pipeline) (offset count : Nat) :
    (∀ r, routing = some (RoutingInfo.SingleNode r) → pipeline_route routing = r) ∧
    ((∀ r, routing ≠ some (RoutingInfo.SingleNode r)) →
      pipeline_route routing = .Random) ∧
    (Client.send_pipeline ⟨.Cluster cc, t⟩ p offset count routing false =
      (cc.route_pipeline p offset count (pipeline_route routing)).bind
        fun values => send_pipeline_convert values p.cmds) := by
  refine ⟨?_, ?_, rfl⟩
  · rintro r rfl
    rfl
  · intro h
    match routing with
    | none => rfl
    | some (.SingleNode r) => exact absurd rfl (h r)
    | some (.MultiNode r) => rfl

/-- C5 witness: the theorem applied to an explicit multi-destination request,
which resolves to Random. -/
theorem C5_pipeline_single_destination_witness :
    pipeline_route (some (RoutingInfo.MultiNode .AllNodes)) = .Random := by
  have h := (C5_pipeline_single_destination (some (.MultiNode .AllNodes))
    trivial_cluster 0 ⟨[]⟩ 0 0).2.1
  exact h (fun r hr => by simp at hr)

/-- C6: a single-command send on a cluster-topology client resolves routing
with this precedence: a caller-supplied routing is used verbatim; else the
routing derived from the command (RoutingInfo::for_routable, a parameter
here); else a random single node; the resolved route is what is handed to the
cluster collaborator. -/
theorem C6_command_routing_precedence (fr : Cmd → Option RoutingInfo)
    (routing : Option RoutingInfo) (cmd : Cmd) (cc : ClusterConnection) (t : Nat) :
    (∀ r, routing = some r → command_routing fr routing cmd = r) ∧
    (routing = none → ∀ d, fr cmd = some d → command_routing fr routing cmd = d) ∧
    (routing = none → fr cmd = none →
      command_routing fr routing cmd = .SingleNode .Random) ∧
    (Client.send_command fr ⟨.Cluster cc, t⟩ cmd routing false =
      (cc.route_command cmd (command_routing fr routing cmd)).bind
        fun value => convert_to_expected_type value (expected_type_for_cmd cmd)) := by
  refine ⟨?_, ?_, ?_, rfl⟩
  · rintro r rfl
    rfl
  · rintro rfl d hd
    simp [command_routing, Option.orElse, hd]
  · rintro rfl hn
    simp [command_routing, Option.orElse, hn]

/-- C6 witness: the theorem applied with no caller routing and no derivable
routing, resolving to a random single node. -/
theorem C6_command_routing_precedence_witness :
    command_routing (fun _ => none) none { args := ["GET", "k"] } =
      RoutingInfo.SingleNode .Random :=
  (C6_command_routing_precedence (fun _ => none) none { args := ["GET", "k"] }
    trivial_cluster 0).2.2.1 rfl rfl

/-- C7: a successful construction with cluster_mode_enabled = false always
yields a client whose topology variant is Standalone, and with
cluster_mode_enabled = true always a client whose topology variant is
Cluster. -/
theorem C7_topology_matches_flag
    (create_cluster : ConnectionRequest → Except RedisError ClusterConnection)
    (create_standalone :
      ConnectionRequest → Except StandaloneClientConnectionError StandaloneClient)
    (deadline_fired : Bool) (request : ConnectionRequest) (client : Client)
    (hok : client_new create_cluster create_standalone deadline_fired request =
      .ok client) :
    (request.cluster_mode_enabled = true →
      ∃ cl, client.internal_client = ClientWrapper.Cluster cl) ∧
    (request.cluster_mode_enabled = false →
      ∃ sc, client.internal_client = ClientWrapper.Standalone sc) := by
  cases deadline_fired with
  | true => simp [client_new, race_outcome, Except.mapError, Except.bind] at hok
  | false =>
    constructor
    · intro hcm
      cases hcc : create_cluster request with
      | error e =>
        simp [client_new, race_outcome, hcm, hcc, Except.mapError, Except.map,
          Except.bind] at hok
      | ok cl =>
        refine ⟨cl, ?_⟩
        simp [client_new, race_outcome, hcm, hcc, Except.mapError, Except.map,
          Except.bind] at hok
        rw [← hok]
    · intro hcm
      cases hcs : create_standalone request with
      | error e =>
        simp [client_new, race_outcome, hcm, hcs, Except.mapError, Except.map,
          Except.bind] at hok
      | ok sc =>
        refine ⟨sc, ?_⟩
        simp [client_new, race_outcome, hcm, hcs, Except.mapError, Except.map,
          Except.bind] at hok
        rw [← hok]

/-- C7 witness: the theorem applied to a cluster-mode request and to a
single-node request, each with trivially succeeding collaborators. -/
theorem C7_topology_matches_flag_witness :
    (∃ cl, (Client.mk (ClientWrapper.Cluster trivial_cluster) 250).internal_client =
      ClientWrapper.Cluster cl) ∧
    (∃ sc, (Client.mk (ClientWrapper.Standalone trivial_standalone) 250).internal_client =
      ClientWrapper.Standalone sc) :=
  ⟨(C7_topology_matches_flag (fun _ => .ok trivial_cluster)
      (fun _ => .ok trivial_standalone) false sample_request _ rfl).1 rfl,
   (C7_topology_matches_flag (fun _ => .ok trivial_cluster)
      (fun _ => .ok trivial_standalone) false
      { sample_request with cluster_mode_enabled := false } _ rfl).2 rfl⟩

/-- C8: the sanitized configuration summary logged at construction never
depends on the authentication info: two requests equal in every other field
produce the identical summary string, whatever their passwords. -/
theorem C8_password_never_logged (r1 r2 : ConnectionRequest)
    (h : r1.addresses = r2.addresses ∧ r1.tls_mode = r2.tls_mode ∧
      r1.cluster_mode_enabled = r2.cluster_mode_enabled ∧
      r1.request_timeout = r2.request_timeout ∧
      r1.database_id = r2.database_id ∧
      r1.read_from = r2.read_from ∧
      r1.connection_retry_strategy = r2.connection_retry_strategy ∧
      r1.use_resp3 = r2.use_resp3) :
    sanitized_request_string r1 = sanitized_request_string r2 := by
  obtain ⟨h1, h2, h3, h4, h5, h6, h7, h8⟩ := h
  simp [sanitized_request_string, h1, h2, h3, h4, h5, h6, h7]

/-- C8 witness: two requests that differ only in their password (one has
credentials, one has none) log the identical summary. -/
theorem C8_password_never_logged_witness :
    sanitized_request_string { sample_request with
        authentication_info := some { username := "admin", password := "hunter2" } } =
      sanitized_request_string sample_request :=
  C8_password_never_logged _ _ ⟨rfl, rfl, rfl, rfl, rfl, rfl, rfl, rfl⟩

/-- C9: the connection info built for every initial node of the cluster
connection uses database index 0, whatever the request's database_id. -/
theorem C9_cluster_database_zero (request : ConnectionRequest) (ci : ConnectionInfo)
    (h : ci ∈ create_cluster_client_infos request) :
    ci.redis.db = 0 := by
  simp only [create_cluster_client_infos, List.mem_map] at h
  obtain ⟨address, _, rfl⟩ := h
  cases hai : request.authentication_info <;>
    simp [get_connection_info, get_redis_connection_info, hai]

/-- C9 witness: the theorem applied to a request whose database_id is 5. -/
theorem C9_cluster_database_zero_witness :
    (get_connection_info { host := "localhost", port := 6379 } TlsMode.NoTls
      (get_redis_connection_info none 0 false)).redis.db = 0 :=
  C9_cluster_database_zero sample_request _
    (by simp [create_cluster_client_infos, sample_request])

/-- C10: the effective port is 6379 when the configured 32-bit port is exactly
0, and otherwise the configured value truncated modulo 2^16; in particular a
configured port of 65536 yields effective port 0, not 6379. -/
theorem C10_get_port_truncation (a : NodeAddress) (_h32 : a.port < 4294967296) :
    (a.port = 0 → get_port a = 6379) ∧
    (a.port ≠ 0 → get_port a = a.port % 65536) ∧
    (get_port { host := a.host, port := 65536 } = 0) := by
  refine ⟨?_, ?_, ?_⟩
  · intro h
    simp [get_port, h]
  · intro h
    simp [get_port, h]
  · simp [get_port]

/-- C10 witness: the theorem applied at ports 0, 65537 and 65536. -/
theorem C10_get_port_truncation_witness :
    (get_port { host := "h", port := 0 } = 6379) ∧
    (get_port { host := "h", port := 65537 } = 1) ∧
    (get_port { host := "h", port := 65536 } = 0) := by
  have h0 := C10_get_port_truncation { host := "h", port := 0 } (by decide)
  have h1 := C10_get_port_truncation { host := "h", port := 65537 } (by decide)
  exact ⟨h0.1 rfl, (h1.2.1 (by decide)).trans (by decide), h1.2.2⟩
